import Mathlib

/-!
Verification of the portfolio backend (main.py, schemas.py) against its
natural-language specification. The code is shallowly embedded: handlers become
pure Lean functions over an explicit environment carrying the outcomes of the
external calls (document store, SMTP, file removal) and the clock readings, and
the local file system is explicit state. The store adapter (database.py) is not
part of the provided sources; where its behaviour decides a claim it is modelled
from the specification and marked as such in its doc comment.
-/

namespace Portfolio

/-- Python truthiness of an optional string, as used by os.getenv results:
None is falsy, the empty string is falsy, every other string is truthy. -/
def pyTruthy : Option String → Bool
  | none => false
  | some s => !s.isEmpty

/-- The Python expression `a or b` on optional strings: the left operand when
it is truthy, otherwise the right operand. -/
def pyOr (a b : Option String) : Option String :=
  if pyTruthy a then a else b

/-- The Python expression `str(x)` on an optional string: `str(None)` is the
literal text None, otherwise the string itself. -/
def pyStrOfOpt : Option String → String
  | none => "None"
  | some s => s

/-- Simplified executable model of pydantic EmailStr syntactic validation (the
validator is library code outside this repository): exactly one at-sign, a
non-empty local part, and a domain that contains a dot, does not start or end
with a dot, with no space anywhere. The claims settled here depend only on how
the handlers branch on validity, not on the exact accepted language. -/
def isValidEmail (s : String) : Bool :=
  let cs := s.toList
  let i := cs.findIdx (· = '@')
  let lp := cs.take i
  let dom := cs.drop (i + 1)
  cs.count '@' == 1 && !lp.isEmpty && !dom.isEmpty && dom.contains '.' &&
    !(dom.head? == some '.') && !(dom.getLast? == some '.') && !(cs.contains ' ')

/-- Validation performed by the ContactMessage pydantic model (schemas.py):
name is any string, email must be a valid EmailStr, message must have length
between 1 and 5000 code points. -/
def contactMessageValid (email message : String) : Bool :=
  isValidEmail email && 1 ≤ message.length && message.length ≤ 5000

/-- The request body of POST /api/contact (class ContactPayload in main.py):
name, email and message; FastAPI rejects the request with 422 before the
handler body runs when email is not a valid EmailStr. -/
structure ContactPayload where
  name : String
  email : String
  message : String

/-- Environment of one contact request: the three environment variables read
by the handler, the outcome create_document would produce if called (ok id, or
an exception), and the outcome the SMTP send would produce if attempted. -/
structure ContactEnv where
  gmail_user : Option String
  gmail_app_password : Option String
  contact_to_email : Option String
  createOutcome : Except String String
  smtpOutcome : Except String Unit

/-- Observable outcome of one contact request: HTTP status code, the status
and warning and saved_id fields of the JSON body, the detail of an
HTTPException when one is raised, and which side effects happened:
whether create_document was invoked, whether a document was persisted, and
whether an SMTP send was attempted. -/
structure ContactResult where
  statusCode : Nat
  status : Option String
  warning : Option String
  saved_id : Option String
  detail : Option String
  storeCalled : Bool
  storeWritten : Bool
  emailAttempted : Bool

/-- Whether outbound email is configured, exactly as the handler tests it:
`if gmail_user and gmail_app_password and to_email` with
`to_email = os.getenv("CONTACT_TO_EMAIL") or gmail_user`. -/
def emailConfigured (env : ContactEnv) : Bool :=
  pyTruthy env.gmail_user && pyTruthy env.gmail_app_password &&
    pyTruthy (pyOr env.contact_to_email env.gmail_user)

/-- Body of send_contact (main.py lines 146-183), entered after FastAPI has
validated the payload. ContactMessage is constructed inside the try block, so
a message of invalid length raises there and is swallowed by the bare except,
leaving saved_id as None without calling create_document; the email branch
still runs afterwards. -/
def send_contact (env : ContactEnv) (payload : ContactPayload) : ContactResult :=
  let to_email := pyOr env.contact_to_email env.gmail_user
  let msgOk := contactMessageValid payload.email payload.message
  let saved_id : Option String :=
    if msgOk then
      match env.createOutcome with
      | .ok id => some id
      | .error _ => none
    else none
  let storeCalled := msgOk
  let storeWritten := msgOk &&
    (match env.createOutcome with | .ok _ => true | .error _ => false)
  if pyTruthy env.gmail_user && pyTruthy env.gmail_app_password && pyTruthy to_email then
    match env.smtpOutcome with
    | .ok _ =>
      { statusCode := 200, status := some "sent", warning := none,
        saved_id := saved_id, detail := none, storeCalled := storeCalled,
        storeWritten := storeWritten, emailAttempted := true }
    | .error e =>
      { statusCode := 202, status := some "saved_only", warning := some e,
        saved_id := saved_id, detail := none, storeCalled := storeCalled,
        storeWritten := storeWritten, emailAttempted := true }
  else
    if pyTruthy saved_id then
      { statusCode := 200, status := some "saved_only", warning := none,
        saved_id := saved_id, detail := none, storeCalled := storeCalled,
        storeWritten := storeWritten, emailAttempted := false }
    else
      { statusCode := 500, status := none, warning := none,
        saved_id := none,
        detail := some "Email not configured and database unavailable.",
        storeCalled := storeCalled, storeWritten := storeWritten,
        emailAttempted := false }

/-- POST /api/contact as seen by a client: FastAPI validates ContactPayload
first (EmailStr on email), answering 422 without running the handler body on
failure; otherwise the body runs. -/
def contactEndpoint (env : ContactEnv) (name email message : String) : ContactResult :=
  if isValidEmail email then
    send_contact env ⟨name, email, message⟩
  else
    { statusCode := 422, status := none, warning := none, saved_id := none,
      detail := some "value is not a valid email address",
      storeCalled := false, storeWritten := false, emailAttempted := false }

/-- Zero padding as performed by strftime format codes with a width. -/
def padZeros (w : Nat) (n : Nat) : String :=
  String.mk (List.replicate (w - (toString n).length) '0') ++ toString n

/-- A Python datetime value, as produced by datetime.utcnow(). -/
structure PyDateTime where
  year : Nat
  month : Nat
  day : Nat
  hour : Nat
  minute : Nat
  second : Nat
  microsecond : Nat

/-- `strftime("%Y%m%d%H%M%S%f")`: four-digit year, two-digit month, day, hour,
minute and second, and six-digit microsecond, all zero padded. -/
def strftimeTimestamp (t : PyDateTime) : String :=
  padZeros 4 t.year ++ padZeros 2 t.month ++ padZeros 2 t.day ++
    padZeros 2 t.hour ++ padZeros 2 t.minute ++ padZeros 2 t.second ++
    padZeros 6 t.microsecond

/-- Index of the last occurrence of a character, or -1 when absent: the Python
expression `p.rfind(c)`. -/
def rfindIdx (cs : List Char) (c : Char) : Int :=
  match (cs.reverse).findIdx? (· = c) with
  | none => -1
  | some i => (cs.length : Int) - 1 - i

/-- The extension component of `os.path.splitext` (posixpath): everything from
the last dot of the base name onward, unless that base name consists of leading
dots up to there, in which case the extension is empty. -/
def splitextExt (p : String) : String :=
  let cs := p.toList
  let sepIndex := rfindIdx cs '/'
  let dotIndex := rfindIdx cs '.'
  if sepIndex < dotIndex then
    let start := (sepIndex + 1).toNat
    let between := (cs.drop start).take (dotIndex.toNat - start)
    if between.any (fun ch => ch ≠ '.') then String.mk (cs.drop dotIndex.toNat)
    else ""
  else ""

/-- The multipart file part of an upload request: the client-declared file
name and content type, and the payload bytes. -/
structure UploadFileIn where
  filename : String
  content_type : Option String
  contents : List Nat

/-- The Video pydantic model (schemas.py): title is any string (no emptiness
constraint), size_bytes carries the ge 0 constraint, which the handler always
satisfies since it passes a byte length. There is no created_at field. -/
structure Video where
  title : String
  description : Option String
  filename : String
  url : String
  mime_type : Option String
  size_bytes : Option Nat

/-- The VideoOut response model (main.py). -/
structure VideoOut where
  id : String
  title : String
  description : Option String
  url : String
  mime_type : Option String
  size_bytes : Option Nat
  created_at : Option String

/-- The uploads directory as explicit state: file name to byte content. -/
def FileSystem : Type := List (String × List Nat)

/-- Opening a path for writing and writing the whole payload: any previous
content under that name is replaced. -/
def fsWrite (fs : FileSystem) (name : String) (contents : List Nat) : FileSystem :=
  (name, contents) :: List.filter (fun e => e.1 ≠ name) fs

/-- `os.remove`: the entry disappears (the fallible call is modelled by the
removeOutcome oracle of the environment; this is the successful case). -/
def fsRemove (fs : FileSystem) (name : String) : FileSystem :=
  List.filter (fun e => e.1 ≠ name) fs

/-- Content of the file at a name, when present. -/
def fsLookup (fs : FileSystem) (name : String) : Option (List Nat) :=
  (List.find? (fun e => e.1 = name) fs).map Prod.snd

/-- Environment of one upload request: the clock reading used for the file
name, the ISO timestamp string taken again at response construction, the
outcome of create_document, and the outcome os.remove would produce if
invoked. -/
structure UploadEnv where
  nowName : PyDateTime
  respIso : String
  createOutcome : Except String String
  removeOutcome : Except String Unit

/-- Observable outcome of one upload request: the response (VideoOut, or an
HTTPException status and detail), the uploads directory afterwards, and the
Video document persisted in the store, if any. -/
structure UploadResult where
  response : Except (Nat × String) VideoOut
  fs : FileSystem
  insertedDoc : Option Video

/-- upload_video (main.py lines 73-116): derive the extension from the client
name, build the timestamped safe name, write the payload, build the Video
record and persist it; on persistence failure remove the file best-effort
(swallowing removal errors) and raise HTTPException 500 with the underlying
message; on success answer with the echoed fields and a fresh created_at. -/
def upload_video (env : UploadEnv) (fs₀ : FileSystem) (file : UploadFileIn)
    (title : String) (description : Option String) : UploadResult :=
  let file_ext := splitextExt file.filename
  let ts := strftimeTimestamp env.nowName
  let safe_name := "video_" ++ ts ++ file_ext
  let fs₁ := fsWrite fs₀ safe_name file.contents
  let public_url := "/uploads/" ++ safe_name
  let video_doc : Video :=
    { title := title, description := description, filename := safe_name,
      url := public_url, mime_type := file.content_type,
      size_bytes := some file.contents.length }
  match env.createOutcome with
  | .error e =>
    let fs₂ := match env.removeOutcome with
      | .ok _ => fsRemove fs₁ safe_name
      | .error _ => fs₁
    { response := .error (500, e), fs := fs₂, insertedDoc := none }
  | .ok inserted_id =>
    { response := .ok
        { id := inserted_id, title := video_doc.title,
          description := video_doc.description, url := public_url,
          mime_type := video_doc.mime_type, size_bytes := video_doc.size_bytes,
          created_at := some env.respIso },
      fs := fs₁, insertedDoc := some video_doc }

/-- A raw document as returned by the store: each field optional, absence
meaning the key is missing. The stored identifier is modelled by its string
form. -/
structure RawDoc where
  oid : Option String
  title : Option String
  description : Option String
  filename : Option String
  url : Option String
  mime_type : Option String
  size_bytes : Option Nat
  created_at : Option String

/-- Modelled from the spec: `get_documents` lives in database.py, which is not
among the provided sources. Section 4.1 of the specification says it returns up
to `limit` records matching the filter (empty filter meaning all), in
store-default order. The handler only ever passes the empty filter; `limit` is
a Python int with no positivity check, so non-positive values yield no
records here. -/
def get_documents (_kind : String) (_filt : List (String × String)) (limit : Int)
    (store : List RawDoc) : List RawDoc :=
  store.take limit.toNat

/-- The body of the for loop of list_videos (main.py lines 127-136), applied to
each raw document: id is str of the stored identifier, title defaults to the
placeholder when the key is absent, url defaults to the empty string,
description, mime_type and size_bytes default to None, and created_at is kept
only when truthy. -/
def mapRawDoc (d : RawDoc) : VideoOut :=
  { id := pyStrOfOpt d.oid
    title := d.title.getD "Untitled"
    description := d.description
    url := d.url.getD ""
    mime_type := d.mime_type
    size_bytes := d.size_bytes
    created_at := match d.created_at with
      | some s => if s.isEmpty then none else some s
      | none => none }

/-- The accumulation loop of list_videos, as written: one VideoOut appended
per raw document. -/
def videosLoop : List RawDoc → List VideoOut
  | [] => []
  | d :: rest =>
    { id := pyStrOfOpt d.oid
      title := d.title.getD "Untitled"
      description := d.description
      url := d.url.getD ""
      mime_type := d.mime_type
      size_bytes := d.size_bytes
      created_at := match d.created_at with
        | some s => if s.isEmpty then none else some s
        | none => none } :: videosLoop rest

/-- GET /api/videos (main.py lines 120-137): query the store with the empty
filter and the given limit (default 50), answering 500 with the underlying
message when the query raises, otherwise map every returned document. The
store is modelled as reachable with contents `docs`, or unreachable with an
error. -/
def list_videos (store : Except String (List RawDoc)) (limit : Int) :
    Except (Nat × String) (List VideoOut) :=
  match store with
  | .error e => .error (500, e)
  | .ok docs => .ok (videosLoop (get_documents "video" [] limit docs))

/-- Modelled from the spec: create_document (database.py, not among the
provided sources) "inserts a validated record into the collection named by
kind" and "returns a generated unique identifier" (section 4.1); the stored
document therefore holds exactly the fields of the record plus the assigned
identifier, and in particular no created_at key. -/
def insertedVideoDoc (v : Video) (id : String) : RawDoc :=
  { oid := some id, title := some v.title, description := v.description,
    filename := some v.filename, url := some v.url,
    mime_type := v.mime_type, size_bytes := v.size_bytes,
    created_at := none }

/-- Environment of one diagnostics request: the db handle (None, or a handle
whose list_collection_names call yields names or raises), and the two
environment variables. -/
structure DiagEnv where
  db : Option (Except String (List String))
  database_url : Option String
  database_name : Option String

/-- The response dictionary of GET /test. -/
structure DiagResponse where
  backend : String
  database : String
  database_url : String
  database_name : String
  connection_status : String
  collections : List String

/-- test_database (main.py lines 33-59): the database field reflects the
handle and the enumeration outcome, collections keeps at most the first ten
names (and stays empty when enumeration raises, since the assignment is never
reached), and the two environment variables are reported by presence only. -/
def test_database (env : DiagEnv) : DiagResponse :=
  let dbPart : String × List String :=
    match env.db with
    | some (.ok collections) => ("✅ Connected & Working", collections.take 10)
    | some (.error e) => ("⚠️  Connected but Error: " ++ e.take 50, [])
    | none => ("⚠️  Available but not initialized", [])
  { backend := "✅ Running"
    database := dbPart.1
    database_url := if pyTruthy env.database_url then "✅ Set" else "❌ Not Set"
    database_name := if pyTruthy env.database_name then "✅ Set" else "❌ Not Set"
    connection_status := "Not Connected"
    collections := dbPart.2 }

/-! Sanity checks of the embedding on concrete inputs. -/

example : isValidEmail "a@b.co" = true := by decide

example : isValidEmail "not-an-email" = false := by decide

example : splitextExt "movie.mp4" = ".mp4" := by decide

example : splitextExt ".bashrc" = "" := by decide

example : splitextExt "a.b.c" = ".c" := by decide

example : splitextExt "dir.x/file" = "" := by decide

/-! Helper lemmas shared by the claim proofs. -/

/-- Splitting contactMessageValid into its three conjuncts. -/
theorem contactMessageValid_iff (email message : String) :
    contactMessageValid email message = true ↔
      isValidEmail email = true ∧ 1 ≤ message.length ∧ message.length ≤ 5000 := by
  simp [contactMessageValid, Bool.and_eq_true, and_assoc]

/-- After removing a name, no file is found under that name. -/
theorem fsLookup_fsRemove (fs : FileSystem) (name : String) :
    fsLookup (fsRemove fs name) name = none := by
  induction fs with
  | nil => rfl
  | cons p rest ih =>
    by_cases h : p.1 = name
    · rw [show fsRemove (p :: rest) name = fsRemove rest name by
        simp [fsRemove, List.filter_cons, h]]
      exact ih
    · rw [show fsRemove (p :: rest) name = p :: fsRemove rest name by
        simp [fsRemove, List.filter_cons, h]]
      rw [show fsLookup (p :: fsRemove rest name) name = fsLookup (fsRemove rest name) name by
        simp [fsLookup, List.find?, h]]
      exact ih

/-- A freshly written file is found with exactly the written content. -/
theorem fsLookup_fsWrite (fs : FileSystem) (name : String) (contents : List Nat) :
    fsLookup (fsWrite fs name contents) name = some contents := by
  simp [fsLookup, fsWrite, List.find?]

/-- The listing loop is a map of the per-document translation. -/
theorem videosLoop_eq_map (l : List RawDoc) : videosLoop l = l.map mapRawDoc := by
  induction l with
  | nil => rfl
  | cons d rest ih => simp [videosLoop, mapRawDoc, ih]

/-- Python truthiness of None. -/
theorem pyTruthy_none : pyTruthy none = false := rfl

/-- The body of send_contact attempts the SMTP send exactly when email is
configured, whatever the payload and the store outcome. -/
theorem send_contact_emailAttempted (env : ContactEnv) (p : ContactPayload) :
    (send_contact env p).emailAttempted = emailConfigured env := by
  unfold send_contact emailConfigured
  dsimp only
  split
  · next h =>
    cases hsm : env.smtpOutcome <;> simp [h, hsm]
  · next h =>
    simp only [Bool.not_eq_true] at h
    split <;> split <;> simp [h]

/-- When the ContactMessage validation fails (message length outside 1-5000),
the body of send_contact never invokes create_document, persists nothing, and
carries no saved id. -/
theorem send_contact_no_store_of_invalid (env : ContactEnv) (p : ContactPayload)
    (hmv : contactMessageValid p.email p.message = false) :
    (send_contact env p).storeCalled = false ∧
    (send_contact env p).storeWritten = false ∧
    (send_contact env p).saved_id = none := by
  unfold send_contact
  dsimp only
  split
  · cases hsm : env.smtpOutcome <;> simp [hmv, hsm]
  · simp [hmv, pyTruthy_none]

/-! Claim C1. -/

/-- Claim C1 counterexample: the empty message has length 0, outside 1-5000, so
the submission is invalid, yet with email configured the handler does not
reject it before the side effects: it attempts the SMTP send (the swallowed
ContactMessage validation failure only skips the store write) and even answers
200 sent. -/
theorem contact_invalid_message_not_rejected_cex :
    ("" : String).length = 0 ∧
    (contactEndpoint ⟨some "u@gmail.com", some "pw", none, .ok "id1", .ok ()⟩
        "Bob" "a@b.co" "").emailAttempted = true ∧
    (contactEndpoint ⟨some "u@gmail.com", some "pw", none, .ok "id1", .ok ()⟩
        "Bob" "a@b.co" "").statusCode = 200 := by
  exact ⟨rfl, by decide, by decide⟩

/-- Claim C1 (amended): a submission with syntactically invalid email is
rejected with 422 before any side effect (no create_document call, no email
attempt). A submission whose email is valid but whose message length lies
outside 1-5000 never reaches create_document and persists nothing, because the
ContactMessage constructor raises inside the try block and the bare except
swallows it; the request is however not rejected, and an email send is still
attempted exactly when email is configured. -/
theorem contact_validation_side_effects (env : ContactEnv)
    (name email message : String) :
    (isValidEmail email = false →
      (contactEndpoint env name email message).statusCode = 422 ∧
      (contactEndpoint env name email message).storeCalled = false ∧
      (contactEndpoint env name email message).emailAttempted = false) ∧
    (isValidEmail email = true →
      ¬(1 ≤ message.length ∧ message.length ≤ 5000) →
      (contactEndpoint env name email message).storeCalled = false ∧
      (contactEndpoint env name email message).storeWritten = false ∧
      (contactEndpoint env name email message).saved_id = none ∧
      (contactEndpoint env name email message).emailAttempted = emailConfigured env) := by
  constructor
  · intro h
    simp [contactEndpoint, h]
  · intro he hlen
    have hmv : contactMessageValid email message = false := by
      rcases Bool.eq_false_or_eq_true (contactMessageValid email message) with h | h
      · exact absurd ⟨((contactMessageValid_iff email message).mp h).2.1,
          ((contactMessageValid_iff email message).mp h).2.2⟩ hlen
      · exact h
    have hce : contactEndpoint env name email message =
        send_contact env ⟨name, email, message⟩ := by
      simp [contactEndpoint, he]
    have h1 := send_contact_no_store_of_invalid env ⟨name, email, message⟩ hmv
    have h2 := send_contact_emailAttempted env ⟨name, email, message⟩
    rw [hce]
    exact ⟨h1.1, h1.2.1, h1.2.2, h2⟩

/-! Claim C2. -/

/-- Claim C2 counterexample: with email configured, when the store write and
the SMTP send both fail, the handler still answers 202 with the
partial-success status saved_only and a null saved_id, not an error
response. -/
theorem contact_double_failure_cex :
    (contactEndpoint
        ⟨some "u@gmail.com", some "pw", none, .error "db down", .error "smtp down"⟩
        "Bob" "a@b.co" "hello").statusCode = 202 ∧
    (contactEndpoint
        ⟨some "u@gmail.com", some "pw", none, .error "db down", .error "smtp down"⟩
        "Bob" "a@b.co" "hello").status = some "saved_only" ∧
    (contactEndpoint
        ⟨some "u@gmail.com", some "pw", none, .error "db down", .error "smtp down"⟩
        "Bob" "a@b.co" "hello").saved_id = none ∧
    (contactEndpoint
        ⟨some "u@gmail.com", some "pw", none, .error "db down", .error "smtp down"⟩
        "Bob" "a@b.co" "hello").storeWritten = false := by
  decide

/-- Claim C2 (amended): only in the unconfigured-email case does a store
failure surface as an error: the handler then answers HTTP 500. When email is
configured and both the store write and the send fail, the handler answers
HTTP 202 with status saved_only, the send error as warning, and a null
saved_id, so the double failure is signalled only by the warning together
with the null id, never by an error status. -/
theorem contact_double_failure_responses (env : ContactEnv)
    (name email message : String)
    (hv : contactMessageValid email message = true) :
    (∀ e, emailConfigured env = false → env.createOutcome = .error e →
      (contactEndpoint env name email message).statusCode = 500 ∧
      (contactEndpoint env name email message).detail =
        some "Email not configured and database unavailable." ∧
      (contactEndpoint env name email message).storeWritten = false) ∧
    (∀ e e2, emailConfigured env = true → env.createOutcome = .error e →
      env.smtpOutcome = .error e2 →
      (contactEndpoint env name email message).statusCode = 202 ∧
      (contactEndpoint env name email message).status = some "saved_only" ∧
      (contactEndpoint env name email message).warning = some e2 ∧
      (contactEndpoint env name email message).saved_id = none ∧
      (contactEndpoint env name email message).storeWritten = false) := by
  have he : isValidEmail email = true :=
    ((contactMessageValid_iff email message).mp hv).1
  have hce : contactEndpoint env name email message =
      send_contact env ⟨name, email, message⟩ := by
    simp [contactEndpoint, he]
  rw [hce]
  constructor
  · intro e hc hco
    unfold emailConfigured at hc
    unfold send_contact
    dsimp only
    rw [hc]
    simp [hv, hco, pyTruthy_none]
  · intro e e2 hc hco hsm
    unfold emailConfigured at hc
    unfold send_contact
    dsimp only
    rw [hc]
    simp [hv, hco, hsm]

/-- Claim C2 witness: a concrete unconfigured environment with a failing
store, answered with HTTP 500. -/
theorem contact_double_failure_responses_witness :
    (contactEndpoint ⟨none, none, none, .error "db down", .ok ()⟩
        "Bob" "a@b.co" "hello").statusCode = 500 :=
  ((contact_double_failure_responses ⟨none, none, none, .error "db down", .ok ()⟩
      "Bob" "a@b.co" "hello" (by decide)).1 "db down" (by decide) rfl).1

/-! Claim C4. -/

/-- Claim C4 counterexample: the warning of the 202 saved_only response is the
exception text passed through verbatim, so an SMTP failure whose exception
text is empty yields an empty warning string, against the claimed non-empty
warning. -/
theorem contact_empty_warning_cex :
    (contactEndpoint ⟨some "u@gmail.com", some "pw", none, .ok "id9", .error ""⟩
        "Bob" "a@b.co" "hello").statusCode = 202 ∧
    (contactEndpoint ⟨some "u@gmail.com", some "pw", none, .ok "id9", .error ""⟩
        "Bob" "a@b.co" "hello").status = some "saved_only" ∧
    (contactEndpoint ⟨some "u@gmail.com", some "pw", none, .ok "id9", .error ""⟩
        "Bob" "a@b.co" "hello").warning = some "" := by
  decide

/-- Claim C4 (amended): for every valid contact submission with email
configured, a successful send answers HTTP 200 with status sent and the
persisted id (or none when persistence failed), regardless of the store
outcome; a failed send answers HTTP 202 with status saved_only, the warning
equal to the exception text verbatim (hence possibly empty), and the
persisted id (or none when persistence failed). -/
theorem contact_configured_responses (env : ContactEnv)
    (name email message : String)
    (hv : contactMessageValid email message = true)
    (hc : emailConfigured env = true) :
    (env.smtpOutcome = .ok () →
      (contactEndpoint env name email message).statusCode = 200 ∧
      (contactEndpoint env name email message).status = some "sent" ∧
      (contactEndpoint env name email message).saved_id =
        (match env.createOutcome with
          | .ok id => some id
          | .error _ => none)) ∧
    (∀ e, env.smtpOutcome = .error e →
      (contactEndpoint env name email message).statusCode = 202 ∧
      (contactEndpoint env name email message).status = some "saved_only" ∧
      (contactEndpoint env name email message).warning = some e ∧
      (contactEndpoint env name email message).saved_id =
        (match env.createOutcome with
          | .ok id => some id
          | .error _ => none)) := by
  have he : isValidEmail email = true :=
    ((contactMessageValid_iff email message).mp hv).1
  have hce : contactEndpoint env name email message =
      send_contact env ⟨name, email, message⟩ := by
    simp [contactEndpoint, he]
  rw [hce]
  unfold emailConfigured at hc
  constructor
  · intro hsm
    unfold send_contact
    dsimp only
    rw [hc]
    simp [hv, hsm]
  · intro e hsm
    unfold send_contact
    dsimp only
    rw [hc]
    simp [hv, hsm]

/-- Claim C4 witness: send succeeds while the store write failed; the answer
is still HTTP 200 with status sent. -/
theorem contact_configured_responses_witness :
    (contactEndpoint ⟨some "u@gmail.com", some "pw", none, .error "db down", .ok ()⟩
        "Bob" "a@b.co" "hello").statusCode = 200 :=
  ((contact_configured_responses
      ⟨some "u@gmail.com", some "pw", none, .error "db down", .ok ()⟩
      "Bob" "a@b.co" "hello" (by decide) (by decide)).1 rfl).1

/-! Claim C6. -/

/-- Claim C6: for a valid contact submission with email not configured,
a successful store write (its generated identifier being a non-empty string)
answers HTTP 200 with status saved_only and the id, and a failed store write
answers HTTP 500. -/
theorem contact_unconfigured_responses (env : ContactEnv)
    (name email message : String)
    (hv : contactMessageValid email message = true)
    (hc : emailConfigured env = false) :
    (∀ id, env.createOutcome = .ok id → id ≠ "" →
      (contactEndpoint env name email message).statusCode = 200 ∧
      (contactEndpoint env name email message).status = some "saved_only" ∧
      (contactEndpoint env name email message).saved_id = some id ∧
      (contactEndpoint env name email message).warning = none) ∧
    (∀ e, env.createOutcome = .error e →
      (contactEndpoint env name email message).statusCode = 500 ∧
      (contactEndpoint env name email message).detail =
        some "Email not configured and database unavailable.") := by
  have he : isValidEmail email = true :=
    ((contactMessageValid_iff email message).mp hv).1
  have hce : contactEndpoint env name email message =
      send_contact env ⟨name, email, message⟩ := by
    simp [contactEndpoint, he]
  rw [hce]
  unfold emailConfigured at hc
  constructor
  · intro id hco hid
    have hie : id.isEmpty = false := by
      rcases Bool.eq_false_or_eq_true id.isEmpty with h | h
      · exact absurd ((String.isEmpty_iff id).mp h) hid
      · exact h
    unfold send_contact
    dsimp only
    rw [hc]
    simp [hv, hco, pyTruthy, hie]
  · intro e hco
    unfold send_contact
    dsimp only
    rw [hc]
    simp [hv, hco, pyTruthy_none]

/-- Claim C6 witness: concrete unconfigured environment, store write
succeeding with id abc123. -/
theorem contact_unconfigured_responses_witness :
    (contactEndpoint ⟨none, none, none, .ok "abc123", .ok ()⟩
        "Bob" "a@b.co" "hello").statusCode = 200 ∧
    (contactEndpoint ⟨none, none, none, .ok "abc123", .ok ()⟩
        "Bob" "a@b.co" "hello").saved_id = some "abc123" :=
  ⟨(((contact_unconfigured_responses ⟨none, none, none, .ok "abc123", .ok ()⟩
      "Bob" "a@b.co" "hello" (by decide) (by decide)).1 "abc123" rfl (by decide))).1,
   (((contact_unconfigured_responses ⟨none, none, none, .ok "abc123", .ok ()⟩
      "Bob" "a@b.co" "hello" (by decide) (by decide)).1 "abc123" rfl (by decide))).2.2.1⟩

/-- Claim C1 witness: an invalid email is rejected with 422 and no side
effect, and an out-of-range message with email configured skips the store
write yet still reaches the email branch. -/
theorem contact_validation_side_effects_witness :
    ((contactEndpoint ⟨none, none, none, .ok "i", .ok ()⟩
        "N" "nomail" "hi").statusCode = 422 ∧
     (contactEndpoint ⟨none, none, none, .ok "i", .ok ()⟩
        "N" "nomail" "hi").storeCalled = false ∧
     (contactEndpoint ⟨none, none, none, .ok "i", .ok ()⟩
        "N" "nomail" "hi").emailAttempted = false) ∧
    ((contactEndpoint ⟨some "u@gmail.com", some "pw", none, .ok "i", .ok ()⟩
        "N" "a@b.co" "").storeCalled = false ∧
     (contactEndpoint ⟨some "u@gmail.com", some "pw", none, .ok "i", .ok ()⟩
        "N" "a@b.co" "").storeWritten = false ∧
     (contactEndpoint ⟨some "u@gmail.com", some "pw", none, .ok "i", .ok ()⟩
        "N" "a@b.co" "").saved_id = none ∧
     (contactEndpoint ⟨some "u@gmail.com", some "pw", none, .ok "i", .ok ()⟩
        "N" "a@b.co" "").emailAttempted =
       emailConfigured ⟨some "u@gmail.com", some "pw", none, .ok "i", .ok ()⟩) :=
  ⟨(contact_validation_side_effects ⟨none, none, none, .ok "i", .ok ()⟩
      "N" "nomail" "hi").1 (by decide),
   (contact_validation_side_effects ⟨some "u@gmail.com", some "pw", none, .ok "i", .ok ()⟩
      "N" "a@b.co" "").2 (by decide) (by decide)⟩

/-! Claim C3. -/

/-- Claim C3 counterexample: the store write fails and the best-effort
os.remove also fails (the error is swallowed); the upload answers 500 and
leaves no record, but the just-written file still exists afterwards. -/
theorem upload_cleanup_failure_cex :
    (upload_video ⟨⟨2024, 1, 2, 3, 4, 5, 6⟩, "ts", .error "db down", .error "perm"⟩ []
        ⟨"a.mp4", some "video/mp4", [1, 2, 3]⟩ "T" none).response = .error (500, "db down") ∧
    (upload_video ⟨⟨2024, 1, 2, 3, 4, 5, 6⟩, "ts", .error "db down", .error "perm"⟩ []
        ⟨"a.mp4", some "video/mp4", [1, 2, 3]⟩ "T" none).insertedDoc = none ∧
    fsLookup (upload_video ⟨⟨2024, 1, 2, 3, 4, 5, 6⟩, "ts", .error "db down", .error "perm"⟩ []
        ⟨"a.mp4", some "video/mp4", [1, 2, 3]⟩ "T" none).fs
      "video_20240102030405000006.mp4" = some [1, 2, 3] :=
  ⟨rfl, rfl, rfl⟩

/-- Claim C3 (amended): when the store write fails after the file write, the
upload handler attempts to delete the just-written file, swallowing any
deletion error, signals HTTP 500 carrying the underlying message, and leaves
no record behind; whenever the deletion itself succeeds, the file does not
exist afterwards (if the deletion fails, the file remains). -/
theorem upload_store_failure_cleanup (env : UploadEnv) (fs₀ : FileSystem)
    (file : UploadFileIn) (title : String) (description : Option String)
    (e : String) (hco : env.createOutcome = .error e) :
    (upload_video env fs₀ file title description).response = .error (500, e) ∧
    (upload_video env fs₀ file title description).insertedDoc = none ∧
    (env.removeOutcome = .ok () →
      fsLookup (upload_video env fs₀ file title description).fs
        ("video_" ++ strftimeTimestamp env.nowName ++ splitextExt file.filename) = none) := by
  unfold upload_video
  dsimp only
  rw [hco]
  refine ⟨rfl, rfl, ?_⟩
  intro hro
  rw [hro]
  exact fsLookup_fsRemove _ _

/-- Claim C3 witness: concrete failing store write with a succeeding removal:
the file is gone afterwards and the response is the 500 error. -/
theorem upload_store_failure_cleanup_witness :
    (upload_video ⟨⟨2024, 1, 2, 3, 4, 5, 6⟩, "ts", .error "db down", .ok ()⟩ []
        ⟨"a.mp4", some "video/mp4", [1, 2, 3]⟩ "T" none).response = .error (500, "db down") ∧
    fsLookup (upload_video ⟨⟨2024, 1, 2, 3, 4, 5, 6⟩, "ts", .error "db down", .ok ()⟩ []
        ⟨"a.mp4", some "video/mp4", [1, 2, 3]⟩ "T" none).fs
      "video_20240102030405000006.mp4" = none :=
  ⟨(upload_store_failure_cleanup ⟨⟨2024, 1, 2, 3, 4, 5, 6⟩, "ts", .error "db down", .ok ()⟩ []
      ⟨"a.mp4", some "video/mp4", [1, 2, 3]⟩ "T" none "db down" rfl).1,
   (upload_store_failure_cleanup ⟨⟨2024, 1, 2, 3, 4, 5, 6⟩, "ts", .error "db down", .ok ()⟩ []
      ⟨"a.mp4", some "video/mp4", [1, 2, 3]⟩ "T" none "db down" rfl).2.2 rfl⟩

/-! Claim C5. -/

/-- Claim C5 counterexample: an upload with an empty title is accepted, not
rejected: the persisted record carries the empty title and the response is a
success. -/
theorem upload_empty_title_accepted_cex :
    ((upload_video ⟨⟨2024, 1, 2, 3, 4, 5, 6⟩, "2024-01-02T03:04:05", .ok "vid1", .ok ()⟩ []
        ⟨"a.mp4", some "video/mp4", [1, 2, 3]⟩ "" none).insertedDoc.map Video.title) = some "" ∧
    (upload_video ⟨⟨2024, 1, 2, 3, 4, 5, 6⟩, "2024-01-02T03:04:05", .ok "vid1", .ok ()⟩ []
        ⟨"a.mp4", some "video/mp4", [1, 2, 3]⟩ "" none).response =
      .ok ⟨"vid1", "", none, "/uploads/video_20240102030405000006.mp4", some "video/mp4",
        some 3, some "2024-01-02T03:04:05"⟩ :=
  ⟨rfl, rfl⟩

/-- Claim C5 (amended): the upload handler requires the title field to be
present but enforces no non-emptiness: whenever the store write succeeds, the
upload is accepted and the Video record and the response carry the submitted
title verbatim, the empty string included. -/
theorem upload_title_verbatim (env : UploadEnv) (fs₀ : FileSystem)
    (file : UploadFileIn) (title : String) (description : Option String)
    (id : String) (hco : env.createOutcome = .ok id) :
    ((upload_video env fs₀ file title description).insertedDoc.map Video.title) = some title ∧
    ((upload_video env fs₀ file title description).response.toOption.map VideoOut.title) =
      some title := by
  unfold upload_video
  dsimp only
  rw [hco]
  exact ⟨rfl, rfl⟩

/-- Claim C5 witness: concrete upload with the empty title, accepted with the
empty title persisted. -/
theorem upload_title_verbatim_witness :
    ((upload_video ⟨⟨2024, 1, 2, 3, 4, 5, 6⟩, "iso", .ok "vid1", .ok ()⟩ []
        ⟨"a.mp4", some "video/mp4", [1, 2, 3]⟩ "" none).insertedDoc.map Video.title) =
      some "" :=
  (upload_title_verbatim ⟨⟨2024, 1, 2, 3, 4, 5, 6⟩, "iso", .ok "vid1", .ok ()⟩ []
      ⟨"a.mp4", some "video/mp4", [1, 2, 3]⟩ "" none "vid1" rfl).1

/-! Claim C7. -/

/-- Claim C7: a successful upload answers with the file name built as the
fixed tag video_, the microsecond-precision UTC timestamp and the extension
taken from the client-declared name; the url is the fixed mount point
/uploads/ followed by that name; size_bytes is the byte length of the
received payload, and the file written under that name holds exactly the
payload, so its byte length equals size_bytes. -/
theorem upload_success_shape (env : UploadEnv) (fs₀ : FileSystem)
    (file : UploadFileIn) (title : String) (description : Option String)
    (id : String) (hco : env.createOutcome = .ok id) :
    (upload_video env fs₀ file title description).response = .ok
      { id := id, title := title, description := description,
        url := "/uploads/" ++
          ("video_" ++ strftimeTimestamp env.nowName ++ splitextExt file.filename),
        mime_type := file.content_type,
        size_bytes := some file.contents.length,
        created_at := some env.respIso } ∧
    fsLookup (upload_video env fs₀ file title description).fs
        ("video_" ++ strftimeTimestamp env.nowName ++ splitextExt file.filename) =
      some file.contents ∧
    (fsLookup (upload_video env fs₀ file title description).fs
        ("video_" ++ strftimeTimestamp env.nowName ++ splitextExt file.filename)).map
        List.length = some file.contents.length := by
  unfold upload_video
  dsimp only
  rw [hco]
  exact ⟨rfl, by rw [fsLookup_fsWrite], by rw [fsLookup_fsWrite]; rfl⟩

/-- Claim C7 witness: a concrete upload; the timestamped name, the url, the
size and the written file all line up. -/
theorem upload_success_shape_witness :
    (upload_video ⟨⟨2024, 1, 2, 3, 4, 5, 6⟩, "iso", .ok "vid1", .ok ()⟩ []
        ⟨"clip.mp4", some "video/mp4", [9, 8, 7]⟩ "T" (some "d")).response = .ok
      ⟨"vid1", "T", some "d", "/uploads/video_20240102030405000006.mp4",
        some "video/mp4", some 3, some "iso"⟩ ∧
    fsLookup (upload_video ⟨⟨2024, 1, 2, 3, 4, 5, 6⟩, "iso", .ok "vid1", .ok ()⟩ []
        ⟨"clip.mp4", some "video/mp4", [9, 8, 7]⟩ "T" (some "d")).fs
      "video_20240102030405000006.mp4" = some [9, 8, 7] :=
  ⟨(upload_success_shape ⟨⟨2024, 1, 2, 3, 4, 5, 6⟩, "iso", .ok "vid1", .ok ()⟩ []
      ⟨"clip.mp4", some "video/mp4", [9, 8, 7]⟩ "T" (some "d") "vid1" rfl).1,
   (upload_success_shape ⟨⟨2024, 1, 2, 3, 4, 5, 6⟩, "iso", .ok "vid1", .ok ()⟩ []
      ⟨"clip.mp4", some "video/mp4", [9, 8, 7]⟩ "T" (some "d") "vid1" rfl).2.1⟩

/-! Claim C8. -/

/-- Claim C8: the listing queries the store with the empty filter for up to
limit records and maps each raw record through the public shape of mapRawDoc
(identifier by its string form, title defaulting to the placeholder when
absent, description, mime_type, size_bytes and created_at defaulting to
absent), so the output never has more than limit entries; a store failure
surfaces as the 500 error. -/
theorem list_videos_shape (docs : List RawDoc) (limit : Int) (out : List VideoOut)
    (h : list_videos (.ok docs) limit = .ok out) :
    out.length ≤ limit.toNat ∧
    out = (get_documents "video" [] limit docs).map mapRawDoc ∧
    ∀ e, list_videos (.error e) limit = .error (500, e) := by
  have h2 := h
  simp only [list_videos] at h2
  have h3 : out = videosLoop (get_documents "video" [] limit docs) := by
    cases h2
    rfl
  refine ⟨?_, ?_, fun e => rfl⟩
  · rw [h3, videosLoop_eq_map]
    simp only [List.length_map, get_documents, List.length_take]
    exact Nat.min_le_left _ _
  · rw [h3, videosLoop_eq_map]

/-- Claim C8 witness: a store of three records listed with limit 2 yields two
entries. -/
theorem list_videos_shape_witness :
    [mapRawDoc ⟨some "1", some "A", none, none, some "/uploads/a", some "video/mp4",
        some 5, none⟩,
     mapRawDoc ⟨some "2", none, none, none, none, none, none, some ""⟩].length ≤
      (2 : Int).toNat :=
  (list_videos_shape
    [⟨some "1", some "A", none, none, some "/uploads/a", some "video/mp4", some 5, none⟩,
     ⟨some "2", none, none, none, none, none, none, some ""⟩,
     ⟨some "3", some "C", none, none, none, none, none, some "t"⟩] 2 _ rfl).1

/-! Claim C9. -/

/-- Claim C9: the diagnostics endpoint is a total function of its environment
(no exception escapes; it performs no writes), its collections field holds at
most the first ten names, the two configuration variables are reported only
by the fixed presence strings, and a raising collection enumeration degrades
the database field to an error string containing the truncated message. -/
theorem test_database_shape (env : DiagEnv) :
    (test_database env).collections.length ≤ 10 ∧
    ((test_database env).database_url = "✅ Set" ∨
      (test_database env).database_url = "❌ Not Set") ∧
    ((test_database env).database_name = "✅ Set" ∨
      (test_database env).database_name = "❌ Not Set") ∧
    (∀ e, env.db = some (.error e) →
      (test_database env).database = "⚠️  Connected but Error: " ++ e.take 50 ∧
      (test_database env).collections = []) := by
  refine ⟨?_, ?_, ?_, ?_⟩
  · rcases henv : env.db with _ | (e | cols) <;>
      simp [test_database, henv, List.length_take]
  · cases h : pyTruthy env.database_url <;> simp [test_database, h]
  · cases h : pyTruthy env.database_name <;> simp [test_database, h]
  · intro e h
    simp [test_database, h]

/-- Claim C9 witness: a concrete environment whose collection enumeration
raises; the database field is the error string and nothing is thrown. -/
theorem test_database_shape_witness :
    (test_database ⟨some (.error "boom"), some "mongodb://x", none⟩).database =
      "⚠️  Connected but Error: " ++ "boom".take 50 ∧
    (test_database ⟨some (.error "boom"), some "mongodb://x", none⟩).collections.length ≤ 10 :=
  ⟨((test_database_shape ⟨some (.error "boom"), some "mongodb://x", none⟩).2.2.2
      "boom" rfl).1,
   (test_database_shape ⟨some (.error "boom"), some "mongodb://x", none⟩).1⟩

/-! Claim C10. -/

/-- Claim C10: the persisted Video record has no created_at key (the upload
response created_at is taken fresh at response time and never stored), so a
record created by the upload handler and then listed comes back with an
absent created_at. -/
theorem video_created_at_not_persisted (env : UploadEnv) (fs₀ : FileSystem)
    (file : UploadFileIn) (title : String) (description : Option String)
    (v : Video) (id : String)
    (h : (upload_video env fs₀ file title description).insertedDoc = some v) :
    (insertedVideoDoc v id).created_at = none ∧
    (∀ out, (upload_video env fs₀ file title description).response = .ok out →
      out.created_at = some env.respIso) ∧
    list_videos (.ok [insertedVideoDoc v id]) 50 = .ok
      [{ id := id, title := v.title, description := v.description, url := v.url,
         mime_type := v.mime_type, size_bytes := v.size_bytes,
         created_at := none }] := by
  refine ⟨rfl, ?_, rfl⟩
  intro out hout
  cases hco : env.createOutcome with
  | error e => simp [upload_video, hco] at h
  | ok i =>
    simp only [upload_video, hco] at hout
    cases hout
    rfl

/-- Claim C10 witness: a concrete uploaded record, listed with an absent
created_at. -/
theorem video_created_at_not_persisted_witness :
    (insertedVideoDoc ⟨"T", none, "video_20240102030405000006.mp4",
        "/uploads/video_20240102030405000006.mp4", some "video/mp4", some 1⟩
      "id7").created_at = none ∧
    list_videos (.ok [insertedVideoDoc ⟨"T", none, "video_20240102030405000006.mp4",
        "/uploads/video_20240102030405000006.mp4", some "video/mp4", some 1⟩ "id7"]) 50 =
      .ok [⟨"id7", "T", none, "/uploads/video_20240102030405000006.mp4",
        some "video/mp4", some 1, none⟩] :=
  ⟨(video_created_at_not_persisted ⟨⟨2024, 1, 2, 3, 4, 5, 6⟩, "iso", .ok "id7", .ok ()⟩ []
      ⟨"a.mp4", some "video/mp4", [7]⟩ "T" none _ "id7" rfl).1,
   (video_created_at_not_persisted ⟨⟨2024, 1, 2, 3, 4, 5, 6⟩, "iso", .ok "id7", .ok ()⟩ []
      ⟨"a.mp4", some "video/mp4", [7]⟩ "T" none _ "id7" rfl).2.2⟩

end Portfolio
